import Mathlib

/-! Verification development for the PCR test-case module
(`src/harness/testcases/WINNF_FT_S_PCR_testcase.py`).

The module's dictionary-manipulating helpers are embedded over a small
JSON-like value type; the PPA-creation poller is embedded as a function of
an abstract status sequence; the scenario body of `test_WINNF_FT_S_PCR_1`
is embedded as an ordered step trace; the geometric service-area check is
embedded over subsets of the real plane. -/

namespace PcrTestcase

/-- JSON-like values carried by the registration / conditional dictionaries.
Scalars (strings, numbers, booleans) are represented opaquely as `prim`
(the module never computes with a scalar value, it only moves and compares
them); one level of nesting (`installationParam`, `airInterface`, ...) is
`obj` over an association list of scalar fields, preserving Python dict
insertion order. -/
inductive JVal where
  | prim (s : String)
  | obj (fields : List (String × String))
deriving DecidableEq, Repr

/-- A Python dictionary: an insertion-ordered association list. -/
abbrev Dict := List (String × JVal)

/-- Python `d[key]` (as an `Option`, `none` standing for `KeyError`) and
`key in d`: first binding of `key`. -/
def alookup {β : Type} : List (String × β) → String → Option β
  | [], _ => none
  | (k, v) :: rest, key => if k = key then some v else alookup rest key

/-- Python `d.update({key: val})` / `d[key] = val`: replace the value at an
existing key in place, otherwise append the new binding. -/
def asetKey {β : Type} : List (String × β) → String → β → List (String × β)
  | [], key, val => [(key, val)]
  | (k, v) :: rest, key, val =>
    if k = key then (k, val) :: rest else (k, v) :: asetKey rest key val

/-- Python `name in v` for a value expected to be an `installationParam`
object. For a non-object scalar the required-parameter names are never
members (on real data Python would raise `TypeError` or do a substring
test that fails; either way the check does not pass). -/
def memField (v : JVal) (key : String) : Bool :=
  match v with
  | .obj fields => (alookup fields key).isSome
  | .prim _ => false

/-- Python `v[key]` on an `installationParam` object, as an `Option`. -/
def getField (v : JVal) (key : String) : Option String :=
  match v with
  | .obj fields => alookup fields key
  | .prim _ => none

/-- Total version of `getField`; only evaluated after `memField` has been
checked for the key, so the default is never reached on the paths the
source can take. -/
def getFieldD (v : JVal) (key : String) : String :=
  (getField v key).getD ""

/-- `CONDITIONAL_PARAMS_REQUIRED` (module constant, line 64). -/
def CONDITIONAL_PARAMS_REQUIRED : List String :=
  ["antennaAzimuth", "longitude", "latitude", "height",
   "antennaGain", "indoorDeployment", "antennaBeamwidth"]

/-- The `install_params` dictionary built on lines 237-250, in the source's
insertion order, each value read from the conditional record's
`installationParam` object. -/
def mkInstallParams (condIp : JVal) : List (String × String) :=
  [("antennaAzimuth", getFieldD condIp "antennaAzimuth"),
   ("longitude", getFieldD condIp "longitude"),
   ("latitude", getFieldD condIp "latitude"),
   ("antennaGain", getFieldD condIp "antennaGain"),
   ("indoorDeployment", getFieldD condIp "indoorDeployment"),
   ("antennaBeamwidth", getFieldD condIp "antennaBeamwidth"),
   ("height", getFieldD condIp "height")]

/-- One iteration of the inner
`for conditional_params in conditional_registration_data` loop of
`assertRegConditionalsForPpaRefModel` (lines 217-256), processing the
scanned record `c` against the current state of `device`. The record is
first required to contain `installationParam` (`assertIn`, line 220); a
record whose (`fccId`, `cbsdSerialNumber`) pair does not equal the
device's raises the wrong-data `Exception` (lines 222-225) — Python's
`and` short-circuits, so the serial numbers are only read when the
`fccId`s are present and equal; a matching record must carry all of
`CONDITIONAL_PARAMS_REQUIRED` inside its `installationParam` (lines
231-236), and is then merged: `device.update` of the freshly built
`install_params` and of the record's `cbsdCategory` (lines 237-256).
Missing keys accessed with `[...]` surface as Python `KeyError`s, embedded
as `Except.error`. -/
def scanRecord (device c : Dict) : Except String Dict :=
  match alookup c "installationParam" with
  | none => Except.error "installationParm Object is not found in REG-Conditionals"
  | some condIp =>
    match alookup c "fccId", alookup device "fccId" with
    | some cFcc, some dFcc =>
      if cFcc = dFcc then
        match alookup c "cbsdSerialNumber", alookup device "cbsdSerialNumber" with
        | some cSer, some dSer =>
          if cSer = dSer then
            if CONDITIONAL_PARAMS_REQUIRED.any (fun name => !(memField condIp name)) then
              Except.error "ConfigError:Any one of the REG conditional parameter is not found in installation param"
            else
              match alookup c "cbsdCategory" with
              | none => Except.error "KeyError: cbsdCategory"
              | some cat =>
                Except.ok (asetKey (asetKey device "installationParam"
                  (JVal.obj (mkInstallParams condIp))) "cbsdCategory" cat)
          else
            Except.error "ConfigError:Wrong REG-Conditional data for device is found. Please load the correct REG-Conditional data for the device"
        | _, _ => Except.error "KeyError: cbsdSerialNumber"
      else
        Except.error "ConfigError:Wrong REG-Conditional data for device is found. Please load the correct REG-Conditional data for the device"
    | _, _ => Except.error "KeyError: fccId"

/-- The whole inner loop (lines 217-256): records are scanned in order;
the first raised exception aborts; the loop does not stop after a merge,
it continues scanning the remaining records against the updated device. -/
def reconcileDevice (device : Dict) : List Dict → Except String Dict
  | [] => Except.ok device
  | c :: rest =>
    match scanRecord device c with
    | Except.error e => Except.error e
    | Except.ok device2 => reconcileDevice device2 rest

/-- `assertRegConditionalsForPpaRefModel` (lines 188-264): the outer
`for device in registration_request` loop. A device with an inline
`installationParam` is only validated for the required parameter names
(lines 257-264) and left untouched; a device without one is sent through
the conditional-record scan. The Python function mutates the request list
in place and returns `None`; the embedding returns the resulting list,
with the first raised exception as `Except.error`. -/
def assertRegConditionalsForPpaRefModel : List Dict → List Dict → Except String (List Dict)
  | [], _ => Except.ok []
  | device :: rest, conds =>
    match alookup device "installationParam" with
    | none =>
      match reconcileDevice device conds with
      | Except.error e => Except.error e
      | Except.ok device2 =>
        match assertRegConditionalsForPpaRefModel rest conds with
        | Except.error e => Except.error e
        | Except.ok rest2 => Except.ok (device2 :: rest2)
    | some instParam =>
      if CONDITIONAL_PARAMS_REQUIRED.any (fun name => !(memField instParam name)) then
        Except.error "ConfigError:Any one of the REG conditional parameter is not found in installationParam"
      else
        match assertRegConditionalsForPpaRefModel rest conds with
        | Except.error e => Except.error e
        | Except.ok rest2 => Except.ok (device :: rest2)

/-- The source raises on the scanned record unless its (`fccId`,
`cbsdSerialNumber`) pair is present and equals the device's
(lines 222-223). -/
def pairMatches (c device : Dict) : Prop :=
  alookup c "fccId" = alookup device "fccId" ∧
  alookup c "cbsdSerialNumber" = alookup device "cbsdSerialNumber" ∧
  (alookup c "fccId").isSome = true ∧
  (alookup c "cbsdSerialNumber").isSome = true

instance (c device : Dict) : Decidable (pairMatches c device) := by
  unfold pairMatches; infer_instance

/-- Whether the embedded call raised. -/
def isError {α : Type} : Except String α → Bool
  | Except.error _ => true
  | Except.ok _ => false

deriving instance DecidableEq for Except

/-- A response of the admin `GetPpaCreationStatus()` API: the
`{'completed': ..., 'withError': ...}` dictionary. -/
structure CreationStatus where
  completed : Bool
  withError : Bool
deriving DecidableEq, Repr

/-- How a call of `triggerPpaCreationAndWaitUntilComplete` leaves the
function body. -/
inductive PollOutcome where
  /-- `assertIsNotNone` on the creation identifier failed (line 126). -/
  | nullId
  /-- The `SIGALRM` handler raised
  `Exception('Most Recent PPA Creation Status Check Timeout')` (lines 134-140). -/
  | timeout
  /-- `assertFalse(GetPpaCreationStatus()['withError'])` failed (line 147). -/
  | errorFlag
  /-- Normal return of the PPA identifier (line 151). -/
  | success (ppaId : String)
deriving DecidableEq, Repr

/-- Exit record of one poller run: the outcome, the elapsed time units
since the alarm was armed when control leaves the function, and whether a
`signal.alarm` deadline is still pending at that moment. -/
structure PollRun where
  outcome : PollOutcome
  exitTime : Nat
  alarmArmedAtExit : Bool
deriving DecidableEq, Repr

/-- `time.sleep(10)` interval between status queries (line 144). -/
def pollInterval : Nat := 10

/-- `signal.alarm(7200)` deadline (line 140). -/
def pollDeadline : Nat := 7200

/-- Number of loop status queries that fit strictly before the deadline:
query `n` happens at time `pollInterval * n`, so queries `0..719` precede
the alarm and the alarm fires during the sleep that follows query 719. -/
def maxStatusQueries : Nat := pollDeadline / pollInterval

/-- Index of the first status query (query `n` is the `n`-th evaluation of
`GetPpaCreationStatus()`, counting the loop-condition queries from 0) that
reports `completed`, if one occurs before the deadline. -/
def firstCompletedQuery (status : Nat → CreationStatus) : Nat → Nat → Option Nat
  | _, 0 => none
  | n, fuel + 1 =>
    if (status n).completed then some n else firstCompletedQuery status (n + 1) fuel

/-- `triggerPpaCreationAndWaitUntilComplete` (lines 107-151) over an
abstract creation identifier (`None` embedded as `none`) and the sequence
of status responses the UUT will give to successive
`GetPpaCreationStatus()` calls. The null check precedes arming the alarm;
the alarm is one-shot, so after it fires on the timeout path nothing is
pending; `signal.alarm(0)` (line 149) is executed only after the
`withError` assertion, so on the error-flag path the alarm is still armed
when the exception propagates. After the loop observes `completed`, the
`withError` decision is made by a further, fresh status query (line 147). -/
def triggerPpaCreationAndWaitUntilComplete (ppaId : Option String)
    (status : Nat → CreationStatus) : PollRun :=
  match ppaId with
  | none => ⟨PollOutcome.nullId, 0, false⟩
  | some pid =>
    match firstCompletedQuery status 0 maxStatusQueries with
    | none => ⟨PollOutcome.timeout, pollDeadline, false⟩
    | some n =>
      if (status (n + 1)).withError then
        ⟨PollOutcome.errorFlag, pollInterval * n, true⟩
      else
        ⟨PollOutcome.success pid, pollInterval * n, false⟩

/-- `triggerFadAndRetrievePpaZone` (lines 153-186), from the point where
the zone records of the UUT's activity dump are in hand: the source
asserts `len(uut_ppa_zone_data) == 2` (line 182) and returns
`uut_ppa_zone_data[0]` (line 186) without comparing it to `ppa_id`. -/
def triggerFadAndRetrievePpaZone (ppa_id : String) (zoneRecords : List Dict) :
    Except String Dict :=
  if zoneRecords.length = 2 then
    match zoneRecords with
    | [] => Except.error "IndexError"
    | z :: _ => Except.ok z
  else
    Except.error ("There is no single PPA Zone record matches with PPA ID " ++ ppa_id ++
      " received from SAS UUT")

/-- The externally visible steps of `test_WINNF_FT_S_PCR_1`, named after
the statements of its body. -/
inductive ScenarioStep where
  | injectPalRecords
  | registerDevices
  | triggerPpaCreationStep
  | retrievePpaZoneStep
  | configureCensusTractDriver
  | reconcileRegConditionals
  | computeRefModelPpa
  | checkPpaWithinServiceArea
  | checkPolygonsAlmostEqual
deriving DecidableEq, BEq, Repr

/-- Statement order of the body of `test_WINNF_FT_S_PCR_1` (lines 343-419):
inject PAL records (364-365), `assertRegistered` (368-369),
`triggerPpaCreationAndWaitUntilComplete` (379), `triggerFadAndRetrievePpaZone`
(383-386), `ppa.ConfigureCensusTractDriver` (389),
`assertRegConditionalsForPpaRefModel` (394-395), `ppa.PpaCreationModel`
(400-401), `isPpaWithinServiceArea` assertion (412-413),
`PolygonsAlmostEqual` assertion (419). -/
def test_WINNF_FT_S_PCR_1_trace : List ScenarioStep :=
  [ScenarioStep.injectPalRecords,
   ScenarioStep.registerDevices,
   ScenarioStep.triggerPpaCreationStep,
   ScenarioStep.retrievePpaZoneStep,
   ScenarioStep.configureCensusTractDriver,
   ScenarioStep.reconcileRegConditionals,
   ScenarioStep.computeRefModelPpa,
   ScenarioStep.checkPpaWithinServiceArea,
   ScenarioStep.checkPolygonsAlmostEqual]

/-- Points of the geographic plane, with the product (sup) metric. For the
axis-aligned rectangles used below, erosion by a sup-metric ball and by a
Euclidean disc of the same radius coincide, so the choice of metric does
not affect any statement made here. -/
abbrev Point : Type := ℝ × ℝ

/-- Closed axis-aligned rectangle `[x1, x2] × [y1, y2]`: the idealized
polygon used as concrete test geometry. -/
def rect (x1 x2 y1 y2 : ℝ) : Set Point :=
  Set.Icc x1 x2 ×ˢ Set.Icc y1 y2

/-- Shapely `geometry.buffer (-eps)` on a region, idealized: Minkowski
erosion, the points whose closed `eps`-ball stays inside the region. -/
def erode (P : Set Point) (eps : ℝ) : Set Point :=
  {x | Metric.closedBall x eps ⊆ P}

/-- Shapely / GEOS `a.within(b)` for closed regions, per the DE-9IM
pattern `T*F**F***`: the interiors intersect, and no point of `a` (interior
or boundary) meets the exterior of `b`; contact between the two boundaries
is allowed. An empty geometry is within nothing. -/
def shapelyWithin (A B : Set Point) : Prop :=
  A ⊆ B ∧ (interior A ∩ interior B).Nonempty

/-- `ops.cascaded_union` of the census-tract regions (line 87). -/
def cascadedUnion (regions : List (Set Point)) : Set Point :=
  regions.foldr (fun r acc => r ∪ acc) ∅

/-- `isPpaWithinServiceArea` (lines 67-92), from the point where the
per-PAL census-tract regions and the PPA zone region are in hand:
`ppa_zone_shapely_geometry.buffer(-1e-6).within(pal_service_area)`
(line 92). -/
def isPpaWithinServiceArea (tracts : List (Set Point)) (ppaZone : Set Point) : Prop :=
  shapelyWithin (erode ppaZone (1 / 1000000)) (cascadedUnion tracts)

/-- Modelled from the spec's words, for comparison with the source
behaviour `isPpaWithinServiceArea`: the candidate "shrunk by a small
negative buffer ... lies entirely in the interior of ServiceArea (no
exterior or boundary intersection)". -/
def specInteriorContainment (tracts : List (Set Point)) (ppaZone : Set Point) : Prop :=
  erode ppaZone (1 / 1000000) ⊆ interior (cascadedUnion tracts)

/-- A registration request without an `installationParam` key, as left by
`generate_PCR_1_default_config` for the Category B device (line 326). -/
def deviceNoIp : Dict :=
  [("fccId", JVal.prim "fccB"), ("cbsdSerialNumber", JVal.prim "serB"),
   ("userId", JVal.prim "user1")]

/-- An `installationParam` object carrying all of
`CONDITIONAL_PARAMS_REQUIRED`. -/
def fullInstallObj : JVal :=
  JVal.obj [("antennaAzimuth", "120"), ("longitude", "-100.4785"),
            ("latitude", "39.0378"), ("height", "9"), ("antennaGain", "16"),
            ("indoorDeployment", "false"), ("antennaBeamwidth", "30")]

/-- A conditional record whose identifier pair matches `deviceNoIp`,
shaped like `conditionals_b` of `generate_PCR_1_default_config`
(lines 317-324). -/
def condFull : Dict :=
  [("cbsdCategory", JVal.prim "B"), ("fccId", JVal.prim "fccB"),
   ("cbsdSerialNumber", JVal.prim "serB"), ("installationParam", fullInstallObj)]

/-- A conditional record whose identifier pair does not match `deviceNoIp`. -/
def condMismatch : Dict :=
  [("cbsdCategory", JVal.prim "B"), ("fccId", JVal.prim "fccOther"),
   ("cbsdSerialNumber", JVal.prim "serOther"), ("installationParam", fullInstallObj)]

/-- A registration request already carrying a complete
`installationParam` object (the Category A device shape). -/
def deviceWithIp : Dict :=
  [("fccId", JVal.prim "fccA"), ("cbsdSerialNumber", JVal.prim "serA"),
   ("installationParam", fullInstallObj)]

/-- `deviceNoIp` after a successful merge with `condFull`: the seven
required fields appended as `installationParam` in the source's insertion
order, then the conditional record's `cbsdCategory`. -/
def mergedDeviceB : Dict :=
  [("fccId", JVal.prim "fccB"), ("cbsdSerialNumber", JVal.prim "serB"),
   ("userId", JVal.prim "user1"),
   ("installationParam", JVal.obj
     [("antennaAzimuth", "120"), ("longitude", "-100.4785"),
      ("latitude", "39.0378"), ("antennaGain", "16"),
      ("indoorDeployment", "false"), ("antennaBeamwidth", "30"),
      ("height", "9")]),
   ("cbsdCategory", JVal.prim "B")]

/-- A status sequence whose completing response is clean but whose
follow-up response carries the error flag. -/
def statusErrorAtRecheck : Nat → CreationStatus :=
  fun n => if n = 0 then ⟨true, false⟩ else ⟨true, true⟩

/-- A status sequence whose completing response carries the error flag
but whose follow-up response is clean. -/
def statusErrorAtCompletion : Nat → CreationStatus :=
  fun n => if n = 0 then ⟨true, true⟩ else ⟨true, false⟩

/-- A status source that never reports completion. -/
def statusNeverCompletes : Nat → CreationStatus := fun _ => ⟨false, false⟩

/-- A status source that reports completion without error from the start. -/
def statusAlwaysOk : Nat → CreationStatus := fun _ => ⟨true, false⟩

theorem alookup_asetKey_self {β : Type} (d : List (String × β)) (k : String) (v : β) :
    alookup (asetKey d k v) k = some v := by
  induction d with
  | nil => simp [asetKey, alookup]
  | cons hd tl ih =>
    obtain ⟨k0, v0⟩ := hd
    by_cases h0 : k0 = k
    · subst h0
      simp [asetKey, alookup]
    · simp [asetKey, alookup, h0, ih]

theorem alookup_asetKey_ne {β : Type} (d : List (String × β)) (k k' : String) (v : β)
    (h : k' ≠ k) : alookup (asetKey d k v) k' = alookup d k' := by
  have hk : k ≠ k' := Ne.symm h
  induction d with
  | nil => simp [asetKey, alookup, hk]
  | cons hd tl ih =>
    obtain ⟨k0, v0⟩ := hd
    by_cases h0 : k0 = k
    · subst h0
      simp [asetKey, alookup, hk]
    · simp [asetKey, alookup, h0, ih]

theorem cascadedUnion_singleton (s : Set Point) : cascadedUnion [s] = s := by
  simp [cascadedUnion]

/-- Erosion of a rectangle shrinks each side by the radius. -/
theorem erode_rect (a b c d eps : ℝ) (heps : 0 < eps) :
    erode (rect a b c d) eps = rect (a + eps) (b - eps) (c + eps) (d - eps) := by
  ext p
  obtain ⟨x, y⟩ := p
  constructor
  · intro h
    have hx : Metric.closedBall x eps ⊆ Set.Icc a b := by
      intro u hu
      have hmem : ((u, y) : Point) ∈ Metric.closedBall (⟨x, y⟩ : Point) eps := by
        rw [Metric.mem_closedBall] at hu ⊢
        rw [Prod.dist_eq]
        simpa [dist_self] using And.intro hu heps.le
      exact (h hmem).1
    have hy : Metric.closedBall y eps ⊆ Set.Icc c d := by
      intro u hu
      have hmem : ((x, u) : Point) ∈ Metric.closedBall (⟨x, y⟩ : Point) eps := by
        rw [Metric.mem_closedBall] at hu ⊢
        rw [Prod.dist_eq]
        simpa [dist_self] using And.intro heps.le hu
      exact (h hmem).2
    rw [Real.closedBall_eq_Icc] at hx hy
    have hx1 := hx ⟨le_refl _, by linarith⟩
    have hx2 := hx ⟨by linarith, le_refl (x + eps)⟩
    have hy1 := hy ⟨le_refl _, by linarith⟩
    have hy2 := hy ⟨by linarith, le_refl (y + eps)⟩
    exact ⟨⟨by linarith [hx1.1], by linarith [hx2.2]⟩,
           ⟨by linarith [hy1.1], by linarith [hy2.2]⟩⟩
  · intro h
    obtain ⟨⟨hx1, hx2⟩, ⟨hy1, hy2⟩⟩ := h
    intro u hu
    rw [Metric.mem_closedBall, Prod.dist_eq, max_le_iff] at hu
    obtain ⟨hux, huy⟩ := hu
    rw [Real.dist_eq, abs_le] at hux huy
    exact ⟨⟨by linarith [hux.1], by linarith [hux.2]⟩,
           ⟨by linarith [huy.1], by linarith [huy.2]⟩⟩

theorem getField_isSome (v : JVal) (k : String) :
    memField v k = (getField v k).isSome := by
  cases v <;> simp [memField, getField]

theorem getField_eq_getFieldD (v : JVal) (k : String) (h : memField v k = true) :
    getField v k = some (getFieldD v k) := by
  rw [getField_isSome] at h
  obtain ⟨s, hs⟩ := Option.isSome_iff_exists.mp h
  simp [getFieldD, hs]

/-- Anatomy of a successful single-record scan: the record carried an
`installationParam` object, its identifier pair was present and equal to
the device's, all required parameters were present, its `cbsdCategory`
was present, and the result is the device updated with the freshly built
`install_params` object and the record's category. -/
theorem scanRecord_ok_spec (device c d2 : Dict)
    (h : scanRecord device c = Except.ok d2) :
    ∃ condIp cFcc cSer cat,
      alookup c "installationParam" = some condIp ∧
      alookup c "fccId" = some cFcc ∧ alookup device "fccId" = some cFcc ∧
      alookup c "cbsdSerialNumber" = some cSer ∧
      alookup device "cbsdSerialNumber" = some cSer ∧
      CONDITIONAL_PARAMS_REQUIRED.any (fun name => !(memField condIp name)) = false ∧
      alookup c "cbsdCategory" = some cat ∧
      d2 = asetKey (asetKey device "installationParam"
        (JVal.obj (mkInstallParams condIp))) "cbsdCategory" cat := by
  unfold scanRecord at h
  cases hip : alookup c "installationParam" with
  | none =>
    rw [hip] at h
    exact absurd h (by simp)
  | some condIp =>
    rw [hip] at h
    cases hcf : alookup c "fccId" with
    | none =>
      rw [hcf] at h
      dsimp only at h
      exact absurd h (by simp)
    | some cFcc =>
      rw [hcf] at h
      cases hdf : alookup device "fccId" with
      | none =>
        rw [hdf] at h
        dsimp only at h
        exact absurd h (by simp)
      | some dFcc =>
        rw [hdf] at h
        dsimp only at h
        by_cases heqf : cFcc = dFcc
        · rw [if_pos heqf] at h
          cases hcs : alookup c "cbsdSerialNumber" with
          | none =>
            rw [hcs] at h
            dsimp only at h
            exact absurd h (by simp)
          | some cSer =>
            rw [hcs] at h
            cases hds : alookup device "cbsdSerialNumber" with
            | none =>
              rw [hds] at h
              dsimp only at h
              exact absurd h (by simp)
            | some dSer =>
              rw [hds] at h
              dsimp only at h
              by_cases heqs : cSer = dSer
              · rw [if_pos heqs] at h
                cases hany : CONDITIONAL_PARAMS_REQUIRED.any
                    (fun name => !(memField condIp name)) with
                | true =>
                  rw [hany] at h
                  simp only [if_pos] at h
                  exact absurd h (by simp)
                | false =>
                  rw [hany] at h
                  simp only [Bool.false_eq_true, if_false] at h
                  cases hcat : alookup c "cbsdCategory" with
                  | none =>
                    rw [hcat] at h
                    dsimp only at h
                    exact absurd h (by simp)
                  | some cat =>
                    rw [hcat] at h
                    dsimp only at h
                    refine ⟨condIp, cFcc, cSer, cat, rfl, rfl, ?_, rfl, ?_, hany, rfl, ?_⟩
                    · exact congrArg some heqf.symm
                    · exact congrArg some heqs.symm
                    · exact ((Except.ok.injEq _ _).mp h).symm
              · rw [if_neg heqs] at h
                exact absurd h (by simp)
        · rw [if_neg heqf] at h
          exact absurd h (by simp)

theorem scanRecord_ok_pairMatches (device c d2 : Dict)
    (h : scanRecord device c = Except.ok d2) : pairMatches c device := by
  obtain ⟨condIp, cFcc, cSer, cat, hip, hcf, hdf, hcs, hds, hany, hcat, hshape⟩ :=
    scanRecord_ok_spec device c d2 h
  exact ⟨by rw [hcf, hdf], by rw [hcs, hds], by rw [hcf]; rfl, by rw [hcs]; rfl⟩

/-- A merge only touches the `installationParam` and `cbsdCategory` keys,
so the identifier pair the next scan compares against is unchanged. -/
theorem scanRecord_ok_preserves_ids (device c d2 : Dict)
    (h : scanRecord device c = Except.ok d2) :
    alookup d2 "fccId" = alookup device "fccId" ∧
    alookup d2 "cbsdSerialNumber" = alookup device "cbsdSerialNumber" := by
  obtain ⟨condIp, cFcc, cSer, cat, hip, hcf, hdf, hcs, hds, hany, hcat, hshape⟩ :=
    scanRecord_ok_spec device c d2 h
  subst hshape
  constructor
  · rw [alookup_asetKey_ne _ _ _ _ (by decide), alookup_asetKey_ne _ _ _ _ (by decide)]
  · rw [alookup_asetKey_ne _ _ _ _ (by decide), alookup_asetKey_ne _ _ _ _ (by decide)]

/-- A successful scan of the whole conditional list implies every scanned
record's identifier pair matched the device's. -/
theorem reconcileDevice_ok_pairMatches :
    ∀ (conds : List Dict) (device d' : Dict),
      reconcileDevice device conds = Except.ok d' → ∀ c ∈ conds, pairMatches c device := by
  intro conds
  induction conds with
  | nil =>
    intro device d' _ c hc
    simp at hc
  | cons c0 rest ih =>
    intro device d' h c hc
    simp only [reconcileDevice] at h
    cases hscan : scanRecord device c0 with
    | error e =>
      rw [hscan] at h
      exact absurd h (by simp)
    | ok d2 =>
      rw [hscan] at h
      dsimp only at h
      rcases List.mem_cons.mp hc with rfl | hc2
      · exact scanRecord_ok_pairMatches device c d2 hscan
      · obtain ⟨hidf, hids⟩ := scanRecord_ok_preserves_ids device c0 d2 hscan
        obtain ⟨h1, h2, h3, h4⟩ := ih d2 d' h c hc2
        exact ⟨by rw [h1, hidf], by rw [h2, hids], h3, h4⟩

/-- A mismatching head record makes the scan raise at once. -/
theorem reconcileDevice_mismatch_head (device c : Dict) (cs : List Dict)
    (hnm : ¬ pairMatches c device) :
    isError (reconcileDevice device (c :: cs)) = true := by
  cases h : reconcileDevice device (c :: cs) with
  | error e => rfl
  | ok d' =>
    exact absurd (reconcileDevice_ok_pairMatches (c :: cs) device d' h c (by simp)) hnm

/-- A head record without `installationParam` makes the scan raise at
once (`assertIn`, line 220). -/
theorem reconcileDevice_noIp_head (device c : Dict) (cs : List Dict)
    (hip : alookup c "installationParam" = none) :
    isError (reconcileDevice device (c :: cs)) = true := by
  simp only [reconcileDevice]
  unfold scanRecord
  rw [hip]
  rfl

/-- A status source that never completes exhausts any query budget. -/
theorem firstCompletedQuery_eq_none (status : Nat → CreationStatus)
    (h : ∀ n, (status n).completed = false) :
    ∀ fuel start, firstCompletedQuery status start fuel = none := by
  intro fuel
  induction fuel with
  | zero => intro start; rfl
  | succ f ih =>
    intro start
    simp only [firstCompletedQuery, h start, Bool.false_eq_true, if_false]
    exact ih (start + 1)

/-- A status source that completes at the first query is found at once. -/
theorem firstCompletedQuery_zero (status : Nat → CreationStatus)
    (h : (status 0).completed = true) (fuel : Nat) :
    firstCompletedQuery status 0 (fuel + 1) = some 0 := by
  simp [firstCompletedQuery, h]

theorem interior_rect (a b c d : ℝ) :
    interior (rect a b c d) = Set.Ioo a b ×ˢ Set.Ioo c d := by
  rw [rect, interior_prod_eq, interior_Icc, interior_Icc]

/-- Rectangle inclusion from the side bounds. -/
theorem rect_subset_rect {a b c d a' b' c' d' : ℝ}
    (ha : a' ≤ a) (hb : b ≤ b') (hc : c' ≤ c) (hd : d ≤ d') :
    rect a b c d ⊆ rect a' b' c' d' := by
  intro p hp
  obtain ⟨⟨h1, h2⟩, ⟨h3, h4⟩⟩ := hp
  exact ⟨⟨by linarith, by linarith⟩, ⟨by linarith, by linarith⟩⟩

/-- Claim C1 (code bug): the claim — and the function's own docstring,
inline comment and assertion message — call for exactly one zone record
correlated to the created PPA ID, but the source asserts
`len(uut_ppa_zone_data) == 2` (line 182) and returns the first record
without any correlation check. With exactly one zone record (the
scenario's intended success case) the call raises; with two records it
succeeds and returns the first even though its identifier differs from
the requested PPA ID. -/
theorem C1_zoneRecordCount :
    isError (triggerFadAndRetrievePpaZone "ppa0" [[("id", JVal.prim "ppa0")]]) = true ∧
    triggerFadAndRetrievePpaZone "ppa0"
        [[("id", JVal.prim "someOtherZone")], [("id", JVal.prim "ppa0")]] =
      Except.ok [("id", JVal.prim "someOtherZone")] := by decide

/-- Claim C2 (counterexample): on the exit path where the `withError`
assertion fails, the deadline alarm armed at submission is still pending
when the exception propagates — `signal.alarm(0)` (line 149) sits after
the assertion, so it is not executed on that path. -/
theorem C2_alarmLeftArmedOnError :
    (triggerPpaCreationAndWaitUntilComplete (some "ppa0") statusErrorAtRecheck).outcome =
      PollOutcome.errorFlag ∧
    (triggerPpaCreationAndWaitUntilComplete (some "ppa0") statusErrorAtRecheck).alarmArmedAtExit =
      true := by decide

/-- Claim C2 (amended): the deadline alarm is pending at exit exactly on
the error-flag assertion path; the normal return disarms it, the null-id
exit happens before it is armed, and on the timeout path the one-shot
alarm has already fired. -/
theorem C2_alarmArmedIffErrorFlag (ppaId : Option String) (status : Nat → CreationStatus) :
    (triggerPpaCreationAndWaitUntilComplete ppaId status).alarmArmedAtExit = true ↔
      (triggerPpaCreationAndWaitUntilComplete ppaId status).outcome = PollOutcome.errorFlag := by
  cases ppaId with
  | none => simp [triggerPpaCreationAndWaitUntilComplete]
  | some pid =>
    simp only [triggerPpaCreationAndWaitUntilComplete]
    cases hfc : firstCompletedQuery status 0 maxStatusQueries with
    | none => simp
    | some n =>
      by_cases he : (status (n + 1)).withError = true
      · simp [he]
      · simp [he]

/-- Claim C5 (counterexample): in `test_WINNF_FT_S_PCR_1` the external
registration step (`assertRegistered`, line 368) precedes the
`assertRegConditionalsForPpaRefModel` call (line 394), not the other way
round. -/
theorem C5_registrationBeforeReconcile :
    ¬ (test_WINNF_FT_S_PCR_1_trace.indexOf ScenarioStep.reconcileRegConditionals <
        test_WINNF_FT_S_PCR_1_trace.indexOf ScenarioStep.registerDevices) ∧
    test_WINNF_FT_S_PCR_1_trace.indexOf ScenarioStep.registerDevices <
      test_WINNF_FT_S_PCR_1_trace.indexOf ScenarioStep.reconcileRegConditionals := by decide

/-- Claim C5 (amended): the reconciler runs after registration, PPA
creation and zone retrieval, immediately before the reference-model PPA
computation — it is the requests passed to `ppa.PpaCreationModel`, not to
registration, that are normalized. -/
theorem C5_reconcileBeforeRefModel :
    test_WINNF_FT_S_PCR_1_trace.indexOf ScenarioStep.registerDevices <
      test_WINNF_FT_S_PCR_1_trace.indexOf ScenarioStep.reconcileRegConditionals ∧
    test_WINNF_FT_S_PCR_1_trace.indexOf ScenarioStep.retrievePpaZoneStep <
      test_WINNF_FT_S_PCR_1_trace.indexOf ScenarioStep.reconcileRegConditionals ∧
    test_WINNF_FT_S_PCR_1_trace.indexOf ScenarioStep.reconcileRegConditionals + 1 =
      test_WINNF_FT_S_PCR_1_trace.indexOf ScenarioStep.computeRefModelPpa := by decide

/-- Claim C6: with a status source that never completes, the poller times
out exactly at the 7200-unit deadline measured from submission and not
earlier — all loop queries happen at multiples of the fixed 10-unit
interval strictly below the deadline; with a status source that completes
without error, the submitted identifier is returned. -/
theorem C6_pollerDeadline (pid : String) (stNever stOk : Nat → CreationStatus)
    (hN : ∀ n, (stNever n).completed = false)
    (hO : ∀ n, (stOk n).completed = true ∧ (stOk n).withError = false) :
    triggerPpaCreationAndWaitUntilComplete (some pid) stNever =
      ⟨PollOutcome.timeout, pollDeadline, false⟩ ∧
    pollDeadline = 7200 ∧
    pollInterval = 10 ∧
    (∀ i, i < maxStatusQueries → pollInterval * i < pollDeadline) ∧
    (triggerPpaCreationAndWaitUntilComplete (some pid) stOk).outcome =
      PollOutcome.success pid := by
  refine ⟨?_, rfl, rfl, ?_, ?_⟩
  · simp [triggerPpaCreationAndWaitUntilComplete,
      firstCompletedQuery_eq_none stNever hN maxStatusQueries 0]
  · intro i hi
    rw [show maxStatusQueries = 720 from by decide] at hi
    show 10 * i < 7200
    omega
  · have h0 : firstCompletedQuery stOk 0 maxStatusQueries = some 0 := by
      rw [show maxStatusQueries = 719 + 1 from by decide]
      exact firstCompletedQuery_zero stOk (hO 0).1 719
    simp [triggerPpaCreationAndWaitUntilComplete, h0, (hO 1).2]

/-- Witness for C6 at concrete status sources. -/
theorem C6_pollerDeadline_witness :
    triggerPpaCreationAndWaitUntilComplete (some "ppaW") statusNeverCompletes =
      ⟨PollOutcome.timeout, pollDeadline, false⟩ ∧
    (triggerPpaCreationAndWaitUntilComplete (some "ppaW") statusAlwaysOk).outcome =
      PollOutcome.success "ppaW" := by
  have h := C6_pollerDeadline "ppaW" statusNeverCompletes statusAlwaysOk
    (fun n => rfl) (fun n => ⟨rfl, rfl⟩)
  exact ⟨h.1, h.2.2.2.2⟩

/-- Claim C3 (counterexample): a device without `installationParam`
scanned against an empty `conditionalRegistrationData` raises nothing —
the loop body never runs — and the device is passed through
unnormalized, contradicting the claimed failure for the empty case. -/
theorem C3_emptyConditionalsPass :
    alookup deviceNoIp "installationParam" = none ∧
    assertRegConditionalsForPpaRefModel [deviceNoIp] [] = Except.ok [deviceNoIp] := by decide

/-- Claim C3 (amended): for a device lacking an inline installation
parameter object, the scan raises whenever the conditional list is
non-empty and no record matches the device's pair (it already raises on a
non-matching head record), and whenever the head record lacks an
`installationParam` object; but with an empty conditional list no error
is raised and the device is returned unchanged. -/
theorem C3_scanFailureModes (device c : Dict) (cs : List Dict)
    (_hno : alookup device "installationParam" = none) :
    (¬ pairMatches c device → isError (reconcileDevice device (c :: cs)) = true) ∧
    ((∀ r ∈ c :: cs, ¬ pairMatches r device) →
      isError (reconcileDevice device (c :: cs)) = true) ∧
    (alookup c "installationParam" = none →
      isError (reconcileDevice device (c :: cs)) = true) ∧
    reconcileDevice device [] = Except.ok device :=
  ⟨fun hnm => reconcileDevice_mismatch_head device c cs hnm,
   fun hall => reconcileDevice_mismatch_head device c cs (hall c (by simp)),
   fun hip => reconcileDevice_noIp_head device c cs hip,
   rfl⟩

/-- Witness for C3's amended statement at concrete records. -/
theorem C3_scanFailureModes_witness :
    isError (reconcileDevice deviceNoIp [condMismatch]) = true ∧
    reconcileDevice deviceNoIp [] = Except.ok deviceNoIp := by
  have h := C3_scanFailureModes deviceNoIp condMismatch [] (by decide)
  exact ⟨h.1 (by decide), h.2.2.2⟩

/-- Claim C4: when reconciliation of a device lacking installation
parameters succeeds against a single matching conditional record, the
device gains an `installationParam` object holding exactly the seven
required fields with the record's values (in the source's insertion
order), gains the record's `cbsdCategory`, and every other field of the
device is untouched. -/
theorem C4_mergeExactFields (device c : Dict) (condIp cat : JVal) (result : List Dict)
    (hno : alookup device "installationParam" = none)
    (hip : alookup c "installationParam" = some condIp)
    (hcat : alookup c "cbsdCategory" = some cat)
    (hok : assertRegConditionalsForPpaRefModel [device] [c] = Except.ok result) :
    result = [asetKey (asetKey device "installationParam"
        (JVal.obj (mkInstallParams condIp))) "cbsdCategory" cat] ∧
    (mkInstallParams condIp).map Prod.fst =
      ["antennaAzimuth", "longitude", "latitude", "antennaGain",
       "indoorDeployment", "antennaBeamwidth", "height"] ∧
    (∀ name ∈ CONDITIONAL_PARAMS_REQUIRED,
      alookup (mkInstallParams condIp) name = getField condIp name) ∧
    alookup (asetKey (asetKey device "installationParam"
        (JVal.obj (mkInstallParams condIp))) "cbsdCategory" cat) "installationParam" =
      some (JVal.obj (mkInstallParams condIp)) ∧
    alookup (asetKey (asetKey device "installationParam"
        (JVal.obj (mkInstallParams condIp))) "cbsdCategory" cat) "cbsdCategory" =
      some cat ∧
    (∀ k, k ≠ "installationParam" → k ≠ "cbsdCategory" →
      alookup (asetKey (asetKey device "installationParam"
        (JVal.obj (mkInstallParams condIp))) "cbsdCategory" cat) k = alookup device k) := by
  have hscan : ∃ d2, scanRecord device c = Except.ok d2 ∧ result = [d2] := by
    simp only [assertRegConditionalsForPpaRefModel, hno] at hok
    cases hr : reconcileDevice device [c] with
    | error e =>
      rw [hr] at hok
      exact absurd hok (by simp)
    | ok d2 =>
      rw [hr] at hok
      dsimp only [assertRegConditionalsForPpaRefModel] at hok
      refine ⟨d2, ?_, ((Except.ok.injEq _ _).mp hok).symm⟩
      simp only [reconcileDevice] at hr
      cases hs : scanRecord device c with
      | error e =>
        rw [hs] at hr
        exact absurd hr (by simp)
      | ok d3 =>
        rw [hs] at hr
        dsimp only [reconcileDevice] at hr
        exact hr
  obtain ⟨d2, hscanOk, hres⟩ := hscan
  obtain ⟨condIp', cFcc, cSer, cat', hip', hcf, hdf, hcs, hds, hany, hcat', hshape⟩ :=
    scanRecord_ok_spec device c d2 hscanOk
  rw [hip] at hip'
  injection hip' with hcondIp
  subst hcondIp
  rw [hcat] at hcat'
  injection hcat' with hcat2
  subst hcat2
  subst hshape
  have h7 : ∀ name ∈ CONDITIONAL_PARAMS_REQUIRED, memField condIp name = true := by
    intro name hname
    by_contra hcon
    have hb : (!(memField condIp name)) = true := by
      cases hmf : memField condIp name
      · rfl
      · exact absurd hmf hcon
    have hx : CONDITIONAL_PARAMS_REQUIRED.any (fun nm => !(memField condIp nm)) = true :=
      List.any_eq_true.mpr ⟨name, hname, hb⟩
    rw [hany] at hx
    exact absurd hx (by simp)
  refine ⟨hres, rfl, ?_, ?_, alookup_asetKey_self _ _ _, ?_⟩
  · intro name hname
    have hg := getField_eq_getFieldD condIp name (h7 name hname)
    rw [hg]
    simp only [CONDITIONAL_PARAMS_REQUIRED, List.mem_cons, List.not_mem_nil,
      or_false] at hname
    rcases hname with rfl | rfl | rfl | rfl | rfl | rfl | rfl <;> rfl
  · rw [alookup_asetKey_ne _ _ _ _ (by decide)]
    exact alookup_asetKey_self _ _ _
  · intro k hk1 hk2
    rw [alookup_asetKey_ne _ _ _ _ hk2, alookup_asetKey_ne _ _ _ _ hk1]

/-- Witness for C4 at the concrete Category B device and its conditional
record. -/
theorem C4_mergeExactFields_witness :
    [mergedDeviceB] = [asetKey (asetKey deviceNoIp "installationParam"
      (JVal.obj (mkInstallParams fullInstallObj))) "cbsdCategory" (JVal.prim "B")] :=
  (C4_mergeExactFields deviceNoIp condFull fullInstallObj (JVal.prim "B") [mergedDeviceB]
    (by decide) (by decide) (by decide) (by decide)).1

/-- Claim C8: on a request list in which every device already carries an
`installationParam` object with all seven required fields, the function
raises nothing and returns every request unchanged — so a second run
after a successful one is a no-op. -/
theorem C8_idempotentOnComplete (reqs conds : List Dict)
    (h : ∀ d ∈ reqs, ∃ ip, alookup d "installationParam" = some ip ∧
          CONDITIONAL_PARAMS_REQUIRED.all (fun name => memField ip name) = true) :
    assertRegConditionalsForPpaRefModel reqs conds = Except.ok reqs := by
  induction reqs with
  | nil => rfl
  | cons d ds ih =>
    obtain ⟨ip, hip, hall⟩ := h d (by simp)
    have hany : CONDITIONAL_PARAMS_REQUIRED.any (fun name => !(memField ip name)) = false := by
      rw [Bool.eq_false_iff]
      intro hcon
      rw [List.any_eq_true] at hcon
      obtain ⟨x, hx, hbx⟩ := hcon
      have hx2 := List.all_eq_true.mp hall x hx
      simp [hx2] at hbx
    have hrest : assertRegConditionalsForPpaRefModel ds conds = Except.ok ds :=
      ih (fun d2 hd2 => h d2 (by simp [hd2]))
    simp [assertRegConditionalsForPpaRefModel, hip, hany, hrest]

/-- Witness for C8 at a concrete complete device. -/
theorem C8_idempotentOnComplete_witness :
    assertRegConditionalsForPpaRefModel [deviceWithIp] [condMismatch] =
      Except.ok [deviceWithIp] :=
  C8_idempotentOnComplete [deviceWithIp] [condMismatch]
    (fun d hd => by
      rw [List.mem_singleton] at hd
      subst hd
      exact ⟨fullInstallObj, by decide, by decide⟩)

/-- Claim C9: for a device lacking installation parameters, a successful
scan of the conditional list implies every record in the list carried the
device's (fccId, cbsdSerialNumber) pair — the scan raises on the first
record that differs, even when a matching record exists elsewhere or has
already been merged. -/
theorem C9_successRequiresAllMatch (device : Dict) (conds : List Dict) (d' : Dict)
    (_hno : alookup device "installationParam" = none)
    (hok : reconcileDevice device conds = Except.ok d') :
    ∀ c ∈ conds, pairMatches c device :=
  reconcileDevice_ok_pairMatches conds device d' hok

/-- Witness for C9 at the concrete matching record. -/
theorem C9_successRequiresAllMatch_witness :
    pairMatches condFull deviceNoIp :=
  C9_successRequiresAllMatch deviceNoIp [condFull] mergedDeviceB
    (by decide) (by decide) condFull (by simp)

/-- Claim C10: after the polling loop observes a completed status, the
error-flag decision is made by a further, fresh status query (line 147).
In `statusErrorAtCompletion` the completing response itself carries the
error flag yet the call succeeds because the follow-up response is clean;
in `statusErrorAtRecheck` the completing response is clean yet the call
fails because the follow-up response carries the flag. -/
theorem C10_secondQueryDecides :
    (triggerPpaCreationAndWaitUntilComplete (some "ppa0") statusErrorAtCompletion).outcome =
      PollOutcome.success "ppa0" ∧
    (triggerPpaCreationAndWaitUntilComplete (some "ppa0") statusErrorAtRecheck).outcome =
      PollOutcome.errorFlag := by decide

/-- Claim C7 (counterexample): the source accepts a candidate rectangle
sticking out `1e-6` beyond the unit-square service area: the shrunk
candidate is not contained in the service area's interior (it touches the
boundary, which GEOS `within` permits), and the candidate even has points
strictly outside the service area — refuting both the claimed
interior-containment characterization and the claimed rejection of any
polygon with a point strictly outside. -/
theorem C7_withinServiceArea_counterexample :
    isPpaWithinServiceArea [rect 0 1 0 1]
      (rect (-(1 / 1000000)) (1 / 2) (1 / 4) (3 / 4)) ∧
    ¬ specInteriorContainment [rect 0 1 0 1]
      (rect (-(1 / 1000000)) (1 / 2) (1 / 4) (3 / 4)) ∧
    ((-(1 / 1000000) : ℝ), (1 / 2 : ℝ)) ∈ rect (-(1 / 1000000)) (1 / 2) (1 / 4) (3 / 4) ∧
    ((-(1 / 1000000) : ℝ), (1 / 2 : ℝ)) ∉ cascadedUnion [rect 0 1 0 1] := by
  have herode : erode (rect (-(1 / 1000000)) (1 / 2) (1 / 4) (3 / 4)) (1 / 1000000) =
      rect 0 (1 / 2 - 1 / 1000000) (1 / 4 + 1 / 1000000) (3 / 4 - 1 / 1000000) := by
    rw [erode_rect _ _ _ _ _ (by norm_num)]
    norm_num
  refine ⟨⟨?_, ?_⟩, ?_, ?_, ?_⟩
  · rw [herode, cascadedUnion_singleton]
    exact rect_subset_rect (by norm_num) (by norm_num) (by norm_num) (by norm_num)
  · rw [herode, cascadedUnion_singleton, interior_rect, interior_rect]
    refine ⟨((1 : ℝ) / 4, (1 : ℝ) / 2), ⟨?_, ?_⟩, ⟨?_, ?_⟩⟩
    · constructor <;> norm_num
    · constructor <;> norm_num
    · constructor <;> norm_num
    · constructor <;> norm_num
  · intro hsub
    rw [specInteriorContainment, herode, cascadedUnion_singleton, interior_rect] at hsub
    have h0 : ((0 : ℝ), (1 : ℝ) / 2) ∈
        rect 0 (1 / 2 - 1 / 1000000) (1 / 4 + 1 / 1000000) (3 / 4 - 1 / 1000000) :=
      ⟨⟨by norm_num, by norm_num⟩, ⟨by norm_num, by norm_num⟩⟩
    have hin := hsub h0
    exact absurd hin.1.1 (by norm_num)
  · exact ⟨⟨by norm_num, by norm_num⟩, ⟨by norm_num, by norm_num⟩⟩
  · rw [cascadedUnion_singleton]
    intro hmem
    exact absurd hmem.1.1 (by norm_num)

/-- Claim C7 (amended): the check accepts exactly when the candidate
shrunk by the fixed `1e-6` buffer lies inside the closed service area
with the interiors meeting (GEOS `within`; boundary contact of the shrunk
candidate with the service area's boundary is allowed). A candidate
touching the service area's boundary only is accepted; a candidate
reaching farther than the buffer outside the service area is rejected;
but a candidate with points outside by no more than the buffer may still
be accepted (see the counterexample). -/
theorem C7_withinServiceArea_amended :
    (∀ tracts ppaZone, isPpaWithinServiceArea tracts ppaZone ↔
      (erode ppaZone (1 / 1000000) ⊆ cascadedUnion tracts ∧
       (interior (erode ppaZone (1 / 1000000)) ∩
         interior (cascadedUnion tracts)).Nonempty)) ∧
    isPpaWithinServiceArea [rect 0 1 0 1] (rect 0 (1 / 2) 0 (1 / 2)) ∧
    ¬ isPpaWithinServiceArea [rect 0 1 0 1] (rect (1 / 2) 2 0 1) := by
  have heps : (0 : ℝ) < 1 / 1000000 := by norm_num
  refine ⟨fun tracts ppaZone => Iff.rfl, ⟨?_, ?_⟩, ?_⟩
  · rw [erode_rect _ _ _ _ _ heps, cascadedUnion_singleton]
    exact rect_subset_rect (by norm_num) (by norm_num) (by norm_num) (by norm_num)
  · rw [erode_rect _ _ _ _ _ heps, cascadedUnion_singleton, interior_rect, interior_rect]
    refine ⟨((1 : ℝ) / 4, (1 : ℝ) / 4), ⟨?_, ?_⟩, ⟨?_, ?_⟩⟩
    · constructor <;> norm_num
    · constructor <;> norm_num
    · constructor <;> norm_num
    · constructor <;> norm_num
  · intro h
    have hsub := h.1
    rw [erode_rect _ _ _ _ _ heps, cascadedUnion_singleton] at hsub
    have h32 : ((3 : ℝ) / 2, (1 : ℝ) / 2) ∈
        rect (1 / 2 + 1 / 1000000) (2 - 1 / 1000000) (0 + 1 / 1000000) (1 - 1 / 1000000) :=
      ⟨⟨by norm_num, by norm_num⟩, ⟨by norm_num, by norm_num⟩⟩
    have hin := hsub h32
    exact absurd hin.1.2 (by norm_num)

end PcrTestcase
